import Mathlib

/-!
Shallow embedding of the OAuth 2.0 Authorization-Code-with-PKCE client in
`adobe_mcp/auth.py`, and proofs checking the natural-language specification
against it.

Modelling conventions:
* A Python token dict is modelled by `TokenData`; a key that may be missing
  becomes an `Option` field (`dict.get(k, d)` becomes `Option.getD`).
* The token cache file is `CacheFile`: absent, malformed (content that
  `json.load` cannot parse into the expected record), or a stored record.
* Machine-visible side effects (network calls, listener start, browser open,
  polling sleeps, file writes) are recorded in an explicit `Effect` trace
  inside a process state `PState`, which also carries the class-level
  attribute `CallbackHandler.code` and the listener socket's status
  (`serverBound`: the port-8000 socket is bound; `serverServing`: the
  `serve_forever` loop is running — `server.shutdown()` clears only the
  latter, `server_close()` (never called by the source) would clear the
  former).
* Python exceptions become `Except PyErr`; `authenticate` catches only
  `AuthError` as in the source.
* Network calls (`httpx.post`) are oracles passed as function arguments:
  `Except.error body` models a non-200 response with the given body text.
* Clock readings (`int(time.time())`) are explicit `Int` arguments.
-/

/-- A token record as stored in `~/.adobe_mcp/tokens.json`.  Each field is
optional, mirroring Python dict key presence; `expires_in` and `timestamp`
default to 86400 and 0 on read via `Option.getD`. -/
structure TokenData where
  access_token : Option String := none
  refresh_token : Option String := none
  expires_in : Option Int := none
  timestamp : Option Int := none
  token_type : Option String := none
  deriving Repr, DecidableEq

/-- The state of the cache file `~/.adobe_mcp/tokens.json`. -/
inductive CacheFile where
  | absent
  | malformed
  | record (td : TokenData)
  deriving Repr, DecidableEq

/-- Observable side effects of the authentication code. -/
inductive Effect where
  | refreshCall (rt : String)
  | exchangeCall (code verifier : String)
  | startListener
  | openBrowser
  | sleepPoll
  | saveFile
  deriving Repr, DecidableEq

/-- Python exceptions relevant to the flow: `AuthError` (raised and caught by
the source), `json.JSONDecodeError` (raised by `json.load` on malformed
content), and `OSError` (raised by `socketserver.TCPServer` when the port is
already bound). -/
inductive PyErr where
  | authError (msg : String)
  | jsonError
  | osError
  deriving Repr, DecidableEq

/-- An HTTP response sent by `CallbackHandler.do_GET`. -/
structure HttpResponse where
  status : Nat
  contentType : String
  body : String
  deriving Repr, DecidableEq

/-- Process state threaded through the embedded functions. -/
structure PState where
  fs : CacheFile
  handlerCode : Option String
  serverBound : Bool
  serverServing : Bool
  effects : List Effect
  deriving Repr, DecidableEq

/-! ## PKCE generator (`generate_code_verifier`, `generate_code_challenge`)

`base64.urlsafe_b64encode` and `hashlib.sha256` are library calls in the
source; they are embedded here concretely (RFC 4648 URL-safe base64,
FIPS 180-4 SHA-256 over byte lists, 32-bit words as `Nat` mod 2^32). -/

/-- The URL-safe base64 alphabet used by `base64.urlsafe_b64encode`. -/
def b64UrlAlphabet : List Char :=
  ['A','B','C','D','E','F','G','H','I','J','K','L','M',
   'N','O','P','Q','R','S','T','U','V','W','X','Y','Z',
   'a','b','c','d','e','f','g','h','i','j','k','l','m',
   'n','o','p','q','r','s','t','u','v','w','x','y','z',
   '0','1','2','3','4','5','6','7','8','9','-','_']

/-- The alphabet character for a 6-bit group. -/
def b64Char (n : Nat) : Char := b64UrlAlphabet.getD n 'A'

/-- URL-safe base64 encoding of a byte list, with `=` padding. -/
def b64urlEncode : List Nat → List Char
  | [] => []
  | [b1] => [b64Char (b1 / 4), b64Char (b1 % 4 * 16), '=', '=']
  | [b1, b2] => [b64Char (b1 / 4), b64Char (b1 % 4 * 16 + b2 / 16),
      b64Char (b2 % 16 * 4), '=']
  | b1 :: b2 :: b3 :: rest =>
      b64Char (b1 / 4) :: b64Char (b1 % 4 * 16 + b2 / 16) ::
      b64Char (b2 % 16 * 4 + b3 / 64) :: b64Char (b3 % 64) :: b64urlEncode rest

/-- Python `str.rstrip('=')` on a character list. -/
def rstripEq (l : List Char) : List Char :=
  (l.reverse.dropWhile (fun c => c == '=')).reverse

/-- UTF-8 encoding of one character. -/
def utf8EncodeChar (c : Char) : List Nat :=
  let n := c.toNat
  if n < 128 then [n]
  else if n < 2048 then [192 + n / 64, 128 + n % 64]
  else if n < 65536 then [224 + n / 4096, 128 + n / 64 % 64, 128 + n % 64]
  else [240 + n / 262144, 128 + n / 4096 % 64, 128 + n / 64 % 64, 128 + n % 64]

/-- Python `str.encode('utf-8')`. -/
def utf8Bytes (s : String) : List Nat :=
  s.toList.foldr (fun c acc => utf8EncodeChar c ++ acc) []

/-- 2^32, the 32-bit word modulus. -/
def w32 : Nat := 4294967296

/-- 32-bit right rotation. -/
def rotr32 (n x : Nat) : Nat := (x / 2 ^ n + x % 2 ^ n * 2 ^ (32 - n)) % w32

/-- 32-bit right shift. -/
def shr32 (n x : Nat) : Nat := x / 2 ^ n

/-- Three-way xor. -/
def xor3 (a b c : Nat) : Nat := Nat.xor (Nat.xor a b) c

/-- SHA-256 Σ0. -/
def bigSigma0 (x : Nat) : Nat := xor3 (rotr32 2 x) (rotr32 13 x) (rotr32 22 x)

/-- SHA-256 Σ1. -/
def bigSigma1 (x : Nat) : Nat := xor3 (rotr32 6 x) (rotr32 11 x) (rotr32 25 x)

/-- SHA-256 σ0. -/
def smallSigma0 (x : Nat) : Nat := xor3 (rotr32 7 x) (rotr32 18 x) (shr32 3 x)

/-- SHA-256 σ1. -/
def smallSigma1 (x : Nat) : Nat := xor3 (rotr32 17 x) (rotr32 19 x) (shr32 10 x)

/-- SHA-256 Ch; complement within 32 bits is xor with 2^32 - 1. -/
def sha2Ch (x y z : Nat) : Nat :=
  Nat.xor (Nat.land x y) (Nat.land (Nat.xor x 4294967295) z)

/-- SHA-256 Maj. -/
def sha2Maj (x y z : Nat) : Nat :=
  Nat.xor (Nat.xor (Nat.land x y) (Nat.land x z)) (Nat.land y z)

/-- SHA-256 round constants. -/
def sha256K : List Nat :=
  [1116352408, 1899447441, 3049323471, 3921009573,
   961987163, 1508970993, 2453635748, 2870763221,
   3624381080, 310598401, 607225278, 1426881987,
   1925078388, 2162078206, 2614888103, 3248222580,
   3835390401, 4022224774, 264347078, 604807628,
   770255983, 1249150122, 1555081692, 1996064986,
   2554220882, 2821834349, 2952996808, 3210313671,
   3336571891, 3584528711, 113926993, 338241895,
   666307205, 773529912, 1294757372, 1396182291,
   1695183700, 1986661051, 2177026350, 2456956037,
   2730485921, 2820302411, 3259730800, 3345764771,
   3516065817, 3600352804, 4094571909, 275423344,
   430227734, 506948616, 659060556, 883997877,
   958139571, 1322822218, 1537002063, 1747873779,
   1955562222, 2024104815, 2227730452, 2361852424,
   2428436474, 2756734187, 3204031479, 3329325298]

/-- Big-endian byte decomposition, `n` bytes of value `v`. -/
def beBytes (n : Nat) (v : Nat) : List Nat :=
  (List.range n).map (fun i => v / 2 ^ (8 * (n - 1 - i)) % 256)

/-- SHA-256 padding: `0x80`, zeros to 56 mod 64, 8-byte big-endian bit length. -/
def sha256Pad (msg : List Nat) : List Nat :=
  let L := msg.length
  msg ++ [0x80] ++ List.replicate ((119 - L % 64) % 64) 0 ++ beBytes 8 (8 * L)

/-- Group bytes into big-endian 32-bit words. -/
def bytesToWords : List Nat → List Nat
  | b0 :: b1 :: b2 :: b3 :: rest =>
      (b0 * 16777216 + b1 * 65536 + b2 * 256 + b3) :: bytesToWords rest
  | _ => []

/-- Split a word list into 16-word blocks. -/
def chunk16 : List Nat → List (List Nat)
  | a1 :: a2 :: a3 :: a4 :: a5 :: a6 :: a7 :: a8 ::
    a9 :: a10 :: a11 :: a12 :: a13 :: a14 :: a15 :: a16 :: rest =>
      [a1, a2, a3, a4, a5, a6, a7, a8,
       a9, a10, a11, a12, a13, a14, a15, a16] :: chunk16 rest
  | _ => []

/-- The eight SHA-256 working registers. -/
structure Hash8 where
  a : Nat
  b : Nat
  c : Nat
  d : Nat
  e : Nat
  f : Nat
  g : Nat
  h : Nat
  deriving Repr, DecidableEq

/-- SHA-256 initial hash value. -/
def sha256Init : Hash8 :=
  ⟨1779033703, 3144134277, 1013904242, 2773480762,
   1359893119, 2600822924, 528734635, 1541459225⟩

/-- Extend the message schedule by one word. -/
def sha256ExtendStep (w : Array Nat) (t : Nat) : Array Nat :=
  w.push ((smallSigma1 (w.getD (t - 2) 0) + w.getD (t - 7) 0 +
           smallSigma0 (w.getD (t - 15) 0) + w.getD (t - 16) 0) % w32)

/-- The 64-word message schedule of one block. -/
def sha256W (blockWords : List Nat) : Array Nat :=
  (List.range 48).foldl (fun w i => sha256ExtendStep w (i + 16)) blockWords.toArray

/-- One SHA-256 compression round. -/
def sha256Round (st : Hash8) (k w : Nat) : Hash8 :=
  let t1 := (st.h + bigSigma1 st.e + sha2Ch st.e st.f st.g + k + w) % w32
  let t2 := (bigSigma0 st.a + sha2Maj st.a st.b st.c) % w32
  ⟨(t1 + t2) % w32, st.a, st.b, st.c, (st.d + t1) % w32, st.e, st.f, st.g⟩

/-- Process one 16-word block. -/
def sha256Block (st : Hash8) (blockWords : List Nat) : Hash8 :=
  let w := sha256W blockWords
  let r := (List.range 64).foldl
    (fun s t => sha256Round s (sha256K.getD t 0) (w.getD t 0)) st
  ⟨(st.a + r.a) % w32, (st.b + r.b) % w32, (st.c + r.c) % w32,
   (st.d + r.d) % w32, (st.e + r.e) % w32, (st.f + r.f) % w32,
   (st.g + r.g) % w32, (st.h + r.h) % w32⟩

/-- SHA-256 of a byte list, as 32 bytes. -/
def sha256 (msg : List Nat) : List Nat :=
  let fin := (chunk16 (bytesToWords (sha256Pad msg))).foldl sha256Block sha256Init
  beBytes 4 fin.a ++ beBytes 4 fin.b ++ beBytes 4 fin.c ++ beBytes 4 fin.d ++
  beBytes 4 fin.e ++ beBytes 4 fin.f ++ beBytes 4 fin.g ++ beBytes 4 fin.h

/-- `generate_code_verifier` (auth.py:24-27): URL-safe base64 of 32 bytes from
`secrets.token_bytes(32)` (the `entropy` argument models that draw of
cryptographically secure randomness), with `=` padding stripped. -/
def generate_code_verifier (entropy : List Nat) : String :=
  String.mk (rstripEq (b64urlEncode entropy))

/-- `generate_code_challenge` (auth.py:29-33): URL-safe base64 of
SHA-256 of the verifier's UTF-8 bytes, with `=` padding stripped. -/
def generate_code_challenge (verifier : String) : String :=
  String.mk (rstripEq (b64urlEncode (sha256 (utf8Bytes verifier))))

/-! ## Redirect capture listener (`CallbackHandler`, auth.py:35-59)

A callback request is modelled by its parsed query parameters (what
`parse_qs(urlparse(self.path).query)` produces); `query['code'][0]` takes
the first value bound to the key `code`. -/

/-- First value bound to a key in a parsed query string. -/
def queryLookup (key : String) : List (String × String) → Option String
  | [] => none
  | (k, v) :: rest => if k = key then some v else queryLookup key rest

/-- `CallbackHandler.do_GET` (auth.py:40-55): takes the current value of the
class-level attribute `CallbackHandler.code` and the request's parsed query,
returns the updated attribute and the HTTP response sent. -/
def do_GET (handlerCode : Option String) (query : List (String × String)) :
    Option String × HttpResponse :=
  match queryLookup "code" query with
  | some c =>
      (some c, ⟨200, "text/html",
        "<html><body><h1>Authentication successful!</h1><p>You can close this window now.</p></body></html>"⟩)
  | none =>
      (handlerCode, ⟨400, "text/html",
        "<html><body><h1>Authentication failed!</h1><p>No authorization code received.</p></body></html>"⟩)

/-! ## `get_authorization_code` (auth.py:61-101)

The polling loop `while CallbackHandler.code is None: ...` checks the
attribute once per second and raises `AuthError` when `time.time() -
start_time > 300`; with one-second sleeps, the check at elapsed second `k`
is iteration `k`, so the timeout fires at iteration 301, after 301 sleeps.
The loop is embedded with the remaining iteration count as fuel
(`fuel = 301 - k`).  `arrivals k` is the callback request (if any) handled
by the listener thread during sleep `k`; at most one request per polling
interval is modelled. -/

/-- The polling loop of `get_authorization_code`.  Returns the final value of
`CallbackHandler.code` (`some code` when the loop exited with a code, `none`
when it timed out) and the number of `time.sleep(1)` calls made. -/
def pollLoop (arrivals : Nat → Option (List (String × String))) :
    Nat → Option String → Nat → Option String × Nat
  | _, some code, _ => (some code, 0)
  | _, none, 0 => (none, 0)
  | k, none, fuel + 1 =>
    let c' := match arrivals k with
      | none => none
      | some q => (do_GET none q).1
    let r := pollLoop arrivals (k + 1) c' fuel
    (r.1, r.2 + 1)

/-- Result of `get_authorization_code`: the captured code and the verifier. -/
structure GacOut where
  code : String
  verifier : String
  deriving Repr, DecidableEq

/-- `get_authorization_code` (auth.py:61-101).  Generates a fresh PKCE pair,
binds the listener on port 8000 (`OSError` if already bound), opens the
browser, polls `CallbackHandler.code`, and calls `server.shutdown()` on both
the success and the timeout path.  `shutdown()` stops the `serve_forever`
loop (`serverServing := false`) but does not close the listening socket:
`server_close()` is never called, so `serverBound` stays `true`. -/
def get_authorization_code (entropy : List Nat)
    (arrivals : Nat → Option (List (String × String)))
    (st : PState) : Except PyErr GacOut × PState :=
  let verifier := generate_code_verifier entropy
  if st.serverBound then
    (.error .osError, st)
  else
    let st1 : PState :=
      { st with
        serverBound := true
        serverServing := true
        effects := st.effects ++ [Effect.startListener, Effect.openBrowser] }
    let r := pollLoop arrivals 0 st1.handlerCode 301
    let st2 : PState :=
      { st1 with
        handlerCode := r.1
        serverServing := false
        effects := st1.effects ++ List.replicate r.2 Effect.sleepPoll }
    match r.1 with
    | none => (.error (.authError "Authentication timed out after 5 minutes"), st2)
    | some c => (.ok ⟨c, verifier⟩, st2)

/-! ## Token exchange client (auth.py:103-137)

The network is an oracle argument; `Except.error body` models a response
with a non-200 status and the given body text. -/

/-- `get_access_token` (auth.py:103-120): exchanges the code for tokens,
raising `AuthError` on a non-200 response. -/
def get_access_token (exchangeApi : String → String → Except String TokenData)
    (auth_code code_verifier : String) (st : PState) :
    Except PyErr TokenData × PState :=
  let st := { st with effects := st.effects ++ [Effect.exchangeCall auth_code code_verifier] }
  match exchangeApi auth_code code_verifier with
  | .ok td => (.ok td, st)
  | .error body => (.error (.authError ("Failed to get access token: " ++ body)), st)

/-- `refresh_access_token` (auth.py:122-137): refreshes with the refresh
token, raising `AuthError` on a non-200 response. -/
def refresh_access_token (refreshApi : String → Except String TokenData)
    (refresh_token : String) (st : PState) : Except PyErr TokenData × PState :=
  let st := { st with effects := st.effects ++ [Effect.refreshCall refresh_token] }
  match refreshApi refresh_token with
  | .ok td => (.ok td, st)
  | .error body => (.error (.authError ("Failed to refresh access token: " ++ body)), st)

/-! ## Token cache (auth.py:139-181) -/

/-- `save_tokens` (auth.py:139-151): stamps `timestamp` with the current
clock reading and overwrites the cache file with the record. -/
def save_tokens (token_data : TokenData) (now : Int) (st : PState) :
    TokenData × PState :=
  let td : TokenData := { token_data with timestamp := some now }
  (td,
   { st with
     fs := CacheFile.record td
     effects := st.effects ++ [Effect.saveFile] })

/-- The freshness test of `load_tokens` (auth.py:168): the record does not
trigger the refresh branch exactly when
`now - timestamp <= expires_in - 300`, with the source's read defaults
`expires_in = 86400` and `timestamp = 0`. -/
def isFresh (td : TokenData) (now : Int) : Bool :=
  decide (now - td.timestamp.getD 0 ≤ td.expires_in.getD 86400 - 300)

/-- `load_tokens` (auth.py:153-181).  Returns `none` when the file is absent;
raises `json.JSONDecodeError` when its content is malformed; otherwise checks
freshness: a stale record with a refresh token is refreshed (keeping the old
refresh token when the response omits one) and saved, a failed refresh is
caught and yields `none`, and in every other case the stored record is
returned as is. -/
def load_tokens (now : Int) (refreshApi : String → Except String TokenData)
    (st : PState) : Except PyErr (Option TokenData) × PState :=
  match st.fs with
  | CacheFile.absent => (.ok none, st)
  | CacheFile.malformed => (.error .jsonError, st)
  | CacheFile.record token_data =>
    if isFresh token_data now then
      (.ok (some token_data), st)
    else
      match token_data.refresh_token with
      | none => (.ok (some token_data), st)
      | some rt =>
        match refresh_access_token refreshApi rt st with
        | (.error _, st') => (.ok none, st')
        | (.ok new_token_data, st') =>
          let new_token_data :=
            if new_token_data.refresh_token.isNone && token_data.refresh_token.isSome
            then { new_token_data with refresh_token := token_data.refresh_token }
            else new_token_data
          let r := save_tokens new_token_data now st'
          (.ok (some r.1), r.2)

/-- `get_authorization_header` (auth.py:183-190): `Bearer` header from the
loaded record, `none` when no record with an `access_token` is produced. -/
def get_authorization_header (now : Int)
    (refreshApi : String → Except String TokenData) (st : PState) :
    Except PyErr (Option String) × PState :=
  match load_tokens now refreshApi st with
  | (.error e, st') => (.error e, st')
  | (.ok none, st') => (.ok none, st')
  | (.ok (some token_data), st') =>
    match token_data.access_token with
    | none => (.ok none, st')
    | some tok => (.ok (some ("Bearer " ++ tok)), st')

/-- The interactive branch of `authenticate` (auth.py:200-207): the `try`
block running `get_authorization_code`, `get_access_token` and
`save_tokens`, with `AuthError` caught and turned into `None`. -/
def authFlow (entropy : List Nat)
    (arrivals : Nat → Option (List (String × String)))
    (exchangeApi : String → String → Except String TokenData)
    (nowSave : Int) (st : PState) : Except PyErr (Option TokenData) × PState :=
  match get_authorization_code entropy arrivals st with
  | (.error (.authError _), st') => (.ok none, st')
  | (.error e, st') => (.error e, st')
  | (.ok gac, st') =>
    match get_access_token exchangeApi gac.code gac.verifier st' with
    | (.error (.authError _), st'') => (.ok none, st'')
    | (.error e, st'') => (.error e, st'')
    | (.ok token_data, st'') =>
      let r := save_tokens token_data nowSave st''
      (.ok (some r.1), r.2)

/-- `authenticate` (auth.py:192-207): returns the loaded record when it
exists and carries an `access_token`; otherwise runs the interactive flow.
`now` is the clock at the cache check, `nowSave` the clock at the save that
follows a successful exchange. -/
def authenticate (now : Int) (refreshApi : String → Except String TokenData)
    (entropy : List Nat)
    (arrivals : Nat → Option (List (String × String)))
    (exchangeApi : String → String → Except String TokenData)
    (nowSave : Int) (st : PState) : Except PyErr (Option TokenData) × PState :=
  match load_tokens now refreshApi st with
  | (.error e, st') => (.error e, st')
  | (.ok tokens, st') =>
    match tokens with
    | some td =>
      if td.access_token.isSome then (.ok (some td), st')
      else authFlow entropy arrivals exchangeApi nowSave st'
    | none => authFlow entropy arrivals exchangeApi nowSave st'

/-! ## Helper lemmas -/

/-- Every 6-bit group maps into the URL-safe alphabet (out-of-range indices
hit the `getD` default `A`, also in the alphabet). -/
theorem b64Char_mem (n : Nat) : b64Char n ∈ b64UrlAlphabet := by
  unfold b64Char
  rcases h : b64UrlAlphabet[n]? with _ | c
  · rw [List.getD_eq_getElem?_getD, h]; decide
  · rw [List.getD_eq_getElem?_getD, h]
    exact List.getElem?_mem h

/-- No alphabet character is the padding character. -/
theorem b64Char_ne_pad (n : Nat) : b64Char n ≠ '=' := by
  intro h
  have hm := b64Char_mem n
  rw [h] at hm
  revert hm
  decide

/-- Length and alphabet membership of the encoding of a full-group input. -/
theorem b64urlEncode_len_mem : ∀ l : List Nat, l.length % 3 = 0 →
    (b64urlEncode l).length = l.length / 3 * 4 ∧
    ∀ c ∈ b64urlEncode l, c ∈ b64UrlAlphabet
  | [], _ => by simp [b64urlEncode]
  | [a], h => by simp at h
  | [a, b], h => by simp at h
  | a :: b :: c :: rest, h => by
    have hr : rest.length % 3 = 0 := by
      simp [List.length_cons] at h
      omega
    obtain ⟨ih1, ih2⟩ := b64urlEncode_len_mem rest hr
    refine ⟨?_, ?_⟩
    · simp [b64urlEncode, ih1, List.length_cons]
      omega
    · intro x hx
      simp only [b64urlEncode, List.mem_cons] at hx
      rcases hx with h1 | h1 | h1 | h1 | h1
      · rw [h1]; exact b64Char_mem _
      · rw [h1]; exact b64Char_mem _
      · rw [h1]; exact b64Char_mem _
      · rw [h1]; exact b64Char_mem _
      · exact ih2 x h1

/-- The encoder distributes over an append at a group boundary. -/
theorem b64urlEncode_append : ∀ l t : List Nat, l.length % 3 = 0 →
    b64urlEncode (l ++ t) = b64urlEncode l ++ b64urlEncode t
  | [], t, _ => by simp [b64urlEncode]
  | [a], t, h => by simp at h
  | [a, b], t, h => by simp at h
  | a :: b :: c :: rest, t, h => by
    have hr : rest.length % 3 = 0 := by
      simp [List.length_cons] at h
      omega
    simp [b64urlEncode, b64urlEncode_append rest t hr]

/-- C9: every PKCE pair generated from a 32-byte draw of the secure random
source has a verifier of exactly 43 URL-safe characters (within the 43-128
band), carries the full 256 bits of entropy, and its challenge is the
padding-stripped URL-safe base64 encoding of the SHA-256 digest of the
verifier's UTF-8 bytes. -/
theorem pkce_pair_spec (entropy : List Nat) (hlen : entropy.length = 32)
    (hbytes : ∀ b ∈ entropy, b < 256) :
    (generate_code_verifier entropy).length = 43 ∧
    43 ≤ (generate_code_verifier entropy).length ∧
    (generate_code_verifier entropy).length ≤ 128 ∧
    (∀ c ∈ (generate_code_verifier entropy).toList, c ∈ b64UrlAlphabet) ∧
    8 * entropy.length = 256 ∧
    generate_code_challenge (generate_code_verifier entropy) =
      String.mk (rstripEq (b64urlEncode
        (sha256 (utf8Bytes (generate_code_verifier entropy))))) := by
  have h2 : (entropy.drop 30).length = 2 := by
    rw [List.length_drop, hlen]
  obtain ⟨a, b, hab⟩ := List.length_eq_two.mp h2
  have h30 : (entropy.take 30).length = 30 := by
    rw [List.length_take, hlen]
    omega
  have hmod : (entropy.take 30).length % 3 = 0 := by rw [h30]
  have hsplit : entropy = entropy.take 30 ++ [a, b] := by
    rw [← hab, List.take_append_drop]
  obtain ⟨hlen30, hmem30⟩ := b64urlEncode_len_mem _ hmod
  have henc : b64urlEncode entropy =
      b64urlEncode (entropy.take 30) ++
      [b64Char (a / 4), b64Char (a % 4 * 16 + b / 16), b64Char (b % 16 * 4), '='] := by
    conv_lhs => rw [hsplit]
    rw [b64urlEncode_append _ _ hmod]
    rfl
  have hpadfalse : (b64Char (b % 16 * 4) == '=') = false := by
    simp [b64Char_ne_pad]
  have hstrip : rstripEq (b64urlEncode entropy) =
      b64urlEncode (entropy.take 30) ++
      [b64Char (a / 4), b64Char (a % 4 * 16 + b / 16), b64Char (b % 16 * 4)] := by
    rw [henc, rstripEq, List.reverse_append]
    have hrev : ([b64Char (a / 4), b64Char (a % 4 * 16 + b / 16),
        b64Char (b % 16 * 4), '=']).reverse ++ (b64urlEncode (entropy.take 30)).reverse =
        '=' :: b64Char (b % 16 * 4) :: b64Char (a % 4 * 16 + b / 16) ::
        b64Char (a / 4) :: (b64urlEncode (entropy.take 30)).reverse := rfl
    rw [hrev, List.dropWhile_cons, List.dropWhile_cons]
    simp [hpadfalse, List.append_assoc]
  have hverifier : (generate_code_verifier entropy).toList =
      b64urlEncode (entropy.take 30) ++
      [b64Char (a / 4), b64Char (a % 4 * 16 + b / 16), b64Char (b % 16 * 4)] := by
    rw [generate_code_verifier, hstrip]
    rfl
  have hvlen : (generate_code_verifier entropy).length = 43 := by
    have hl : (generate_code_verifier entropy).length =
        (generate_code_verifier entropy).toList.length := rfl
    rw [hl, hverifier, List.length_append, hlen30, h30]
    rfl
  refine ⟨hvlen, by omega, by omega, ?_, by rw [hlen], rfl⟩
  intro c hc
  rw [hverifier] at hc
  rcases List.mem_append.mp hc with h1 | h1
  · exact hmem30 c h1
  · simp only [List.mem_cons, List.not_mem_nil, or_false] at h1
    rcases h1 with h1 | h1 | h1
    · rw [h1]; exact b64Char_mem _
    · rw [h1]; exact b64Char_mem _
    · rw [h1]; exact b64Char_mem _

/-- Witness for `pkce_pair_spec` at a concrete 32-byte entropy draw. -/
theorem pkce_pair_spec_witness :
    (List.range 32).length = 32 ∧ (∀ b ∈ List.range 32, b < 256) ∧
    ((generate_code_verifier (List.range 32)).length = 43 ∧
     43 ≤ (generate_code_verifier (List.range 32)).length ∧
     (generate_code_verifier (List.range 32)).length ≤ 128 ∧
     (∀ c ∈ (generate_code_verifier (List.range 32)).toList, c ∈ b64UrlAlphabet) ∧
     8 * (List.range 32).length = 256 ∧
     generate_code_challenge (generate_code_verifier (List.range 32)) =
       String.mk (rstripEq (b64urlEncode
         (sha256 (utf8Bytes (generate_code_verifier (List.range 32))))))) :=
  ⟨by decide, by decide, pkce_pair_spec (List.range 32) (by decide) (by decide)⟩

/-- If no arriving request carries a `code` parameter, the polling loop never
sees a code and burns through all 301 one-second checks. -/
theorem pollLoop_no_code (arrivals : Nat → Option (List (String × String)))
    (hno : ∀ j q, arrivals j = some q → queryLookup "code" q = none) :
    ∀ fuel k, pollLoop arrivals k none fuel = (none, fuel)
  | 0, k => by simp [pollLoop]
  | fuel + 1, k => by
    have hc : (match arrivals k with
        | none => none
        | some q => (do_GET none q).1) = (none : Option String) := by
      rcases h : arrivals k with _ | q
      · rfl
      · have hq := hno k q h
        simp [do_GET, hq]
    rw [pollLoop, hc, pollLoop_no_code arrivals hno fuel (k + 1)]

set_option maxRecDepth 40000 in
/-- C4 (code bug): with the cache absent and no callback request arriving in
the whole 300-second window, `authenticate`'s listener path raises the
timeout `AuthError` after calling only `server.shutdown()`: the
`serve_forever` loop is stopped but the port-8000 socket is never closed
(`server_close()` is absent from the source), so the bound port is NOT
released when the error surfaces, contrary to the specified contract. -/
theorem get_authorization_code_timeout_port_still_bound :
    (get_authorization_code (List.range 32) (fun _ => none)
        ⟨CacheFile.absent, none, false, false, []⟩).1 =
      Except.error (PyErr.authError "Authentication timed out after 5 minutes") ∧
    (get_authorization_code (List.range 32) (fun _ => none)
        ⟨CacheFile.absent, none, false, false, []⟩).2.serverServing = false ∧
    (get_authorization_code (List.range 32) (fun _ => none)
        ⟨CacheFile.absent, none, false, false, []⟩).2.serverBound = true :=
  ⟨rfl, rfl, rfl⟩

set_option maxRecDepth 80000 in
/-- C5 counterexample: a callback carrying only an `error` parameter gets the
400 failure page but leaves `CallbackHandler.code` untouched (no completion
is signalled), and a flow whose every callback lacks a `code` parameter ends
in the 300-second timeout `AuthError`, not in any denial error. -/
theorem denied_callback_cex :
    do_GET none [("error", "access_denied")] =
      (none, ⟨400, "text/html",
        "<html><body><h1>Authentication failed!</h1><p>No authorization code received.</p></body></html>"⟩) ∧
    (get_authorization_code (List.range 32)
        (fun _ => some [("error", "access_denied")])
        ⟨CacheFile.absent, none, false, false, []⟩).1 =
      Except.error (PyErr.authError "Authentication timed out after 5 minutes") :=
  ⟨rfl, rfl⟩

set_option maxRecDepth 400000 in
/-- C5 (amended): on a request without a `code` parameter the handler
responds 400 with the failure page but does not signal completion
(`CallbackHandler.code` is left unchanged), so when no request of the flow
carries a `code` the waiting `get_authorization_code` learns nothing of the
denial and fails only with the 300-second timeout `AuthError`; no denial
error exists in the code. -/
theorem denied_callback_times_out_spec (handlerCode : Option String)
    (q : List (String × String)) (hq : queryLookup "code" q = none)
    (entropy : List Nat) (st : PState)
    (arrivals : Nat → Option (List (String × String)))
    (hno : ∀ j p, arrivals j = some p → queryLookup "code" p = none)
    (hcode : st.handlerCode = none) (hbound : st.serverBound = false) :
    do_GET handlerCode q = (handlerCode, ⟨400, "text/html",
      "<html><body><h1>Authentication failed!</h1><p>No authorization code received.</p></body></html>"⟩) ∧
    (get_authorization_code entropy arrivals st).1 =
      Except.error (PyErr.authError "Authentication timed out after 5 minutes") ∧
    (get_authorization_code entropy arrivals st).2.handlerCode = none := by
  have hp := pollLoop_no_code arrivals hno 301 0
  refine ⟨by simp [do_GET, hq], ?_, ?_⟩ <;>
    simp [get_authorization_code, hbound, hcode, hp]

/-- Witness for `denied_callback_times_out_spec`: a concrete user-denied
consent redirect. -/
theorem denied_callback_times_out_spec_witness :
    do_GET none [("error", "denied")] = (none, ⟨400, "text/html",
      "<html><body><h1>Authentication failed!</h1><p>No authorization code received.</p></body></html>"⟩) ∧
    (get_authorization_code [] (fun _ => some [("error", "denied")])
        ⟨CacheFile.absent, none, false, false, []⟩).1 =
      Except.error (PyErr.authError "Authentication timed out after 5 minutes") ∧
    (get_authorization_code [] (fun _ => some [("error", "denied")])
        ⟨CacheFile.absent, none, false, false, []⟩).2.handlerCode = none :=
  denied_callback_times_out_spec none [("error", "denied")] (by decide) []
    ⟨CacheFile.absent, none, false, false, []⟩
    (fun _ => some [("error", "denied")])
    (fun j p hp => by cases hp; decide) rfl rfl

/-- C10: the captured code lives in the class-level `CallbackHandler.code`
and is never cleared: a flow that completes with a code leaves the attribute
set, and any later `get_authorization_code` call that starts with the
attribute set returns that old code immediately — zero polling sleeps, no
dependence on new redirects — paired with a verifier generated from the
fresh entropy draw. -/
theorem callback_code_never_reset (entropy : List Nat)
    (arrivals : Nat → Option (List (String × String))) (st : PState) :
    (∀ out st', get_authorization_code entropy arrivals st = (.ok out, st') →
      st'.handlerCode = some out.code) ∧
    (∀ c, st.handlerCode = some c → st.serverBound = false →
      get_authorization_code entropy arrivals st =
        (.ok ⟨c, generate_code_verifier entropy⟩,
         { st with
           serverBound := true
           serverServing := false
           effects := st.effects ++ [Effect.startListener, Effect.openBrowser] })) := by
  obtain ⟨fs, hcode, sb, ss, eff⟩ := st
  constructor
  · intro out st' h
    by_cases hb : sb = true
    · simp [get_authorization_code, hb] at h
    · simp only [Bool.not_eq_true] at hb
      subst hb
      rw [get_authorization_code] at h
      simp only [Bool.false_eq_true, if_false] at h
      rcases hr : pollLoop arrivals 0 hcode 301 with ⟨copt, n⟩
      rw [hr] at h
      cases copt with
      | none => simp at h
      | some c =>
        simp only [Prod.mk.injEq, Except.ok.injEq] at h
        obtain ⟨h1, h2⟩ := h
        rw [← h2, ← h1]
  · intro c hc hb
    subst hc
    simp only at hb
    subst hb
    rw [get_authorization_code]
    simp [pollLoop]

/-- Witness for `callback_code_never_reset`: a second call finding the code
captured by an earlier flow. -/
theorem callback_code_never_reset_witness :
    get_authorization_code (List.range 32) (fun _ => none)
        ⟨CacheFile.absent, some "OLDCODE", false, false, []⟩ =
      (.ok ⟨"OLDCODE", generate_code_verifier (List.range 32)⟩,
       ⟨CacheFile.absent, some "OLDCODE", true, false,
        [Effect.startListener, Effect.openBrowser]⟩) :=
  (callback_code_never_reset (List.range 32) (fun _ => none)
    ⟨CacheFile.absent, some "OLDCODE", false, false, []⟩).2 "OLDCODE" rfl rfl

/-- `load_tokens` touches only the cache file and the effect trace: listener
state and the captured code are unchanged, and the only effects it can add
are a refresh call and a cache write. -/
theorem load_tokens_state (now : Int)
    (refreshApi : String → Except String TokenData) (st : PState) :
    (load_tokens now refreshApi st).2.serverBound = st.serverBound ∧
    (load_tokens now refreshApi st).2.serverServing = st.serverServing ∧
    (load_tokens now refreshApi st).2.handlerCode = st.handlerCode ∧
    ∀ e ∈ (load_tokens now refreshApi st).2.effects,
      e ∈ st.effects ∨ (∃ rt, e = Effect.refreshCall rt) ∨ e = Effect.saveFile := by
  obtain ⟨fs, hc, sb, ss, eff⟩ := st
  cases fs with
  | absent => simp [load_tokens]; tauto
  | malformed => simp [load_tokens]; tauto
  | record td =>
    by_cases hf : isFresh td now
    · simp [load_tokens, hf]; tauto
    · rcases hrt : td.refresh_token with _ | rt
      · simp [load_tokens, hf, hrt]; tauto
      · rcases hapi : refreshApi rt with msg | resp
        · simp [load_tokens, hf, hrt, refresh_access_token, hapi]
          tauto
        · simp [load_tokens, hf, hrt, refresh_access_token, hapi, save_tokens]
          tauto

/-- `get_authorization_header` ends in exactly the state `load_tokens`
produced. -/
theorem get_authorization_header_state (now : Int)
    (refreshApi : String → Except String TokenData) (st : PState) :
    (get_authorization_header now refreshApi st).2 = (load_tokens now refreshApi st).2 := by
  rw [get_authorization_header]
  rcases h : load_tokens now refreshApi st with ⟨res, st'⟩
  rcases res with e | o
  · rfl
  · rcases o with _ | td
    · rfl
    · rcases htd : td.access_token with _ | tok <;> simp [htd]

/-- C1 counterexample: a stale record (issued at epoch 0, checked at 10000,
`expires_in` 3600) with no refresh token still yields the STALE bearer token,
not absent. -/
theorem get_authorization_header_stale_cex :
    (get_authorization_header 10000 (fun _ => Except.error "refresh unavailable")
        ⟨CacheFile.record
           { access_token := some "stale_tok", expires_in := some 3600,
             timestamp := some 0 },
         none, false, false, []⟩).1 = Except.ok (some "Bearer stale_tok") := by
  rfl

/-- C1 (amended): `get_authorization_header` never starts the listener,
never opens a browser and leaves the listener state untouched (its only
possible effects are a refresh call and a cache write); with an absent cache
it returns absent; with a stale record carrying no refresh token but an
access token it returns the stale `Bearer` header rather than absent; with a
stale record whose refresh fails it returns absent. -/
theorem get_authorization_header_spec (now : Int)
    (refreshApi : String → Except String TokenData) (st : PState) :
    ((get_authorization_header now refreshApi st).2.serverBound = st.serverBound ∧
     (get_authorization_header now refreshApi st).2.serverServing = st.serverServing ∧
     ∀ e ∈ (get_authorization_header now refreshApi st).2.effects,
       e ∈ st.effects ∨ (∃ rt, e = Effect.refreshCall rt) ∨ e = Effect.saveFile) ∧
    (st.fs = CacheFile.absent →
      get_authorization_header now refreshApi st = (.ok none, st)) ∧
    (∀ td tok, st.fs = CacheFile.record td → isFresh td now = false →
      td.refresh_token = none → td.access_token = some tok →
      (get_authorization_header now refreshApi st).1 = .ok (some ("Bearer " ++ tok))) ∧
    (∀ td rt msg, st.fs = CacheFile.record td → isFresh td now = false →
      td.refresh_token = some rt → refreshApi rt = .error msg →
      (get_authorization_header now refreshApi st).1 = .ok none) := by
  obtain ⟨hs1, hs2, hs3, hs4⟩ := load_tokens_state now refreshApi st
  have hstate := get_authorization_header_state now refreshApi st
  refine ⟨⟨by rw [hstate, hs1], by rw [hstate, hs2], by rw [hstate]; exact hs4⟩, ?_, ?_, ?_⟩
  · intro hfs
    have hl : load_tokens now refreshApi st = (.ok none, st) := by
      simp [load_tokens, hfs]
    rw [get_authorization_header, hl]
  · intro td tok hfs hstale hrt hacc
    have hl : load_tokens now refreshApi st = (.ok (some td), st) := by
      simp [load_tokens, hfs, hstale, hrt]
    rw [get_authorization_header, hl]
    simp [hacc]
  · intro td rt msg hfs hstale hrt hapi
    have hl : (load_tokens now refreshApi st).1 = .ok none := by
      simp [load_tokens, hfs, hstale, hrt, refresh_access_token, hapi]
    rw [get_authorization_header]
    rcases h : load_tokens now refreshApi st with ⟨res, st'⟩
    rw [h] at hl
    simp only at hl
    rw [hl]

/-- Witness for `get_authorization_header_spec` at concrete cache states. -/
theorem get_authorization_header_spec_witness :
    (get_authorization_header 0 (fun _ => Except.error "e")
        ⟨CacheFile.absent, none, false, false, []⟩ =
      (.ok none, ⟨CacheFile.absent, none, false, false, []⟩)) ∧
    ((get_authorization_header 10000 (fun _ => Except.error "e")
        ⟨CacheFile.record
           { access_token := some "t", expires_in := some 3600, timestamp := some 0 },
         none, false, false, []⟩).1 = .ok (some ("Bearer " ++ "t"))) ∧
    ((get_authorization_header 10000 (fun _ => Except.error "e")
        ⟨CacheFile.record
           { access_token := some "t", refresh_token := some "r",
             expires_in := some 3600, timestamp := some 0 },
         none, false, false, []⟩).1 = .ok none) :=
  ⟨(get_authorization_header_spec 0 (fun _ => Except.error "e")
      ⟨CacheFile.absent, none, false, false, []⟩).2.1 rfl,
   (get_authorization_header_spec 10000 (fun _ => Except.error "e")
      ⟨CacheFile.record
         { access_token := some "t", expires_in := some 3600, timestamp := some 0 },
       none, false, false, []⟩).2.2.1
     { access_token := some "t", expires_in := some 3600, timestamp := some 0 }
     "t" rfl (by decide) rfl rfl,
   (get_authorization_header_spec 10000 (fun _ => Except.error "e")
      ⟨CacheFile.record
         { access_token := some "t", refresh_token := some "r",
           expires_in := some 3600, timestamp := some 0 },
       none, false, false, []⟩).2.2.2
     { access_token := some "t", refresh_token := some "r",
       expires_in := some 3600, timestamp := some 0 }
     "r" "e" rfl (by decide) rfl rfl⟩

/-- C3 counterexample: a malformed cache file makes `load_tokens` raise
`json.JSONDecodeError` to the caller instead of returning absent. -/
theorem load_tokens_malformed_raises_cex :
    (load_tokens 0 (fun _ => Except.error "e")
        ⟨CacheFile.malformed, none, false, false, []⟩).1 =
      Except.error PyErr.jsonError := by
  rfl

/-- C3 (amended): `load_tokens` returns absent without error when the cache
file does not exist, but on malformed stored content it raises the JSON
parse error to the caller (the `open`/`json.load` at auth.py:160-161 is not
guarded by any `try`). -/
theorem load_tokens_absent_malformed_spec (now : Int)
    (refreshApi : String → Except String TokenData) (st : PState) :
    (st.fs = CacheFile.absent → load_tokens now refreshApi st = (.ok none, st)) ∧
    (st.fs = CacheFile.malformed →
      load_tokens now refreshApi st = (.error PyErr.jsonError, st)) := by
  constructor <;> intro h <;> simp [load_tokens, h]

/-- Witness for `load_tokens_absent_malformed_spec`. -/
theorem load_tokens_absent_malformed_spec_witness :
    (load_tokens 0 (fun _ => Except.error "e")
        ⟨CacheFile.absent, none, false, false, []⟩ =
      (.ok none, ⟨CacheFile.absent, none, false, false, []⟩)) ∧
    (load_tokens 0 (fun _ => Except.error "e")
        ⟨CacheFile.malformed, none, false, false, []⟩ =
      (.error PyErr.jsonError, ⟨CacheFile.malformed, none, false, false, []⟩)) :=
  ⟨(load_tokens_absent_malformed_spec 0 (fun _ => Except.error "e")
      ⟨CacheFile.absent, none, false, false, []⟩).1 rfl,
   (load_tokens_absent_malformed_spec 0 (fun _ => Except.error "e")
      ⟨CacheFile.malformed, none, false, false, []⟩).2 rfl⟩

/-- C6: refreshing a stale record whose refresh token the provider's
response omits saves a record that carries the new access token together
with the ORIGINAL refresh token, and stamps the save-time clock. -/
theorem load_tokens_refresh_keeps_refresh_token (now : Int) (st : PState)
    (td resp : TokenData) (rt : String)
    (refreshApi : String → Except String TokenData)
    (hfs : st.fs = CacheFile.record td) (hstale : isFresh td now = false)
    (hrt : td.refresh_token = some rt) (hapi : refreshApi rt = .ok resp)
    (hnort : resp.refresh_token = none) :
    (load_tokens now refreshApi st).1 =
      .ok (some { resp with refresh_token := some rt, timestamp := some now }) ∧
    (load_tokens now refreshApi st).2.fs =
      CacheFile.record { resp with refresh_token := some rt, timestamp := some now } := by
  constructor <;>
    simp [load_tokens, hfs, hstale, hrt, refresh_access_token, hapi, hnort,
      save_tokens]

/-- Witness for `load_tokens_refresh_keeps_refresh_token`: stale cache with
refresh token `r1`, provider answers `{access_token: tok2}` only. -/
theorem load_tokens_refresh_keeps_refresh_token_witness :
    (load_tokens 10000 (fun _ => Except.ok { access_token := some "tok2" })
        ⟨CacheFile.record
           { access_token := some "tok1", refresh_token := some "r1",
             expires_in := some 3600, timestamp := some 0 },
         none, false, false, []⟩).1 =
      .ok (some { access_token := some "tok2", refresh_token := some "r1",
                  timestamp := some 10000 }) ∧
    (load_tokens 10000 (fun _ => Except.ok { access_token := some "tok2" })
        ⟨CacheFile.record
           { access_token := some "tok1", refresh_token := some "r1",
             expires_in := some 3600, timestamp := some 0 },
         none, false, false, []⟩).2.fs =
      CacheFile.record
        { access_token := some "tok2", refresh_token := some "r1",
          timestamp := some 10000 } :=
  load_tokens_refresh_keeps_refresh_token 10000
    ⟨CacheFile.record
       { access_token := some "tok1", refresh_token := some "r1",
         expires_in := some 3600, timestamp := some 0 },
     none, false, false, []⟩
    { access_token := some "tok1", refresh_token := some "r1",
      expires_in := some 3600, timestamp := some 0 }
    { access_token := some "tok2" } "r1"
    (fun _ => Except.ok { access_token := some "tok2" })
    rfl (by decide) rfl rfl rfl

/-- C7: the code treats a cached record as fresh at `now` exactly when
`now - timestamp <= expires_in - 300` (defaults 0 and 86400 for missing
fields): a fresh record is returned untouched with no refresh call, a stale
record with a refresh token triggers the refresh call; a record with
`expires_in` 3600 issued 3400 seconds ago is stale, issued 100 seconds ago
is fresh. -/
theorem isFresh_spec (td : TokenData) (now : Int) :
    (isFresh td now = true ↔
      now - td.timestamp.getD 0 ≤ td.expires_in.getD 86400 - 300) ∧
    (∀ refreshApi st, st.fs = CacheFile.record td → isFresh td now = true →
      load_tokens now refreshApi st = (.ok (some td), st)) ∧
    (∀ refreshApi st rt, st.fs = CacheFile.record td → isFresh td now = false →
      td.refresh_token = some rt →
      Effect.refreshCall rt ∈ (load_tokens now refreshApi st).2.effects) ∧
    (td.expires_in = some 3600 → td.timestamp = some (now - 3400) →
      isFresh td now = false) ∧
    (td.expires_in = some 3600 → td.timestamp = some (now - 100) →
      isFresh td now = true) := by
  refine ⟨by simp [isFresh], ?_, ?_, ?_, ?_⟩
  · intro refreshApi st hfs hf
    simp [load_tokens, hfs, hf]
  · intro refreshApi st rt hfs hf hrt
    rcases hapi : refreshApi rt with msg | resp <;>
      simp [load_tokens, hfs, hf, hrt, refresh_access_token, hapi, save_tokens]
  · intro h1 h2
    simp [isFresh, h1, h2]
  · intro h1 h2
    simp [isFresh, h1, h2]

/-- Witness for `isFresh_spec` at `now = 5000`. -/
theorem isFresh_spec_witness :
    (isFresh { expires_in := some 3600, timestamp := some 1600 } 5000 = false) ∧
    (isFresh { expires_in := some 3600, timestamp := some 4900 } 5000 = true) ∧
    (load_tokens 5000 (fun _ => Except.error "e")
        ⟨CacheFile.record
           { access_token := some "t", expires_in := some 3600, timestamp := some 4900 },
         none, false, false, []⟩ =
      (.ok (some { access_token := some "t", expires_in := some 3600,
                   timestamp := some 4900 }),
       ⟨CacheFile.record
          { access_token := some "t", expires_in := some 3600, timestamp := some 4900 },
        none, false, false, []⟩)) ∧
    Effect.refreshCall "r" ∈
      (load_tokens 5000 (fun _ => Except.error "e")
          ⟨CacheFile.record
             { access_token := some "t", refresh_token := some "r",
               expires_in := some 3600, timestamp := some 1600 },
           none, false, false, []⟩).2.effects :=
  ⟨(isFresh_spec { expires_in := some 3600, timestamp := some 1600 } 5000).2.2.2.1
     rfl (by decide),
   (isFresh_spec { expires_in := some 3600, timestamp := some 4900 } 5000).2.2.2.2
     rfl (by decide),
   (isFresh_spec { access_token := some "t", expires_in := some 3600,
                   timestamp := some 4900 } 5000).2.1
     (fun _ => Except.error "e") _ rfl (by decide),
   (isFresh_spec { access_token := some "t", refresh_token := some "r",
                   expires_in := some 3600, timestamp := some 1600 } 5000).2.2.1
     (fun _ => Except.error "e") _ "r" rfl (by decide) rfl⟩

/-- C8 counterexample: the round-trip is not universal.  A record whose
lifetime (100 s) is below the 300-second margin and which carries a refresh
token does not round-trip: loading at the save-time clock finds
`0 > 100 - 300`, enters the refresh branch, and returns the refreshed
record — here with `access_token "b"` — which is not the saved record (they
differ in more than the issue-time field). -/
theorem save_load_short_expiry_cex :
    (load_tokens 0 (fun _ => Except.ok { access_token := some "b" })
        (save_tokens
          { access_token := some "a", refresh_token := some "r",
            expires_in := some 100 } 0
          ⟨CacheFile.absent, none, false, false, []⟩).2).1 =
      .ok (some { access_token := some "b", refresh_token := some "r",
                  timestamp := some 0 }) ∧
    ({ access_token := some "b", refresh_token := some "r",
       timestamp := some 0 } : TokenData) ≠
      (save_tokens
        { access_token := some "a", refresh_token := some "r",
          expires_in := some 100 } 0
        ⟨CacheFile.absent, none, false, false, []⟩).1 :=
  ⟨rfl, by decide⟩

/-- C8 (amended): `save_tokens` stamps `timestamp` with the save-time clock
reading (never any issue time carried in the input) and writes exactly that
record; loading immediately afterwards (same clock reading) returns that
record unchanged whenever its lifetime is at least the 300-second refresh
margin (`expires_in >= 300`, the 86400 default included) — a shorter-lived
record with a refresh token instead enters the refresh branch on load. -/
theorem save_tokens_roundtrip (td : TokenData) (t : Int) (st : PState) :
    (save_tokens td t st).1 = { td with timestamp := some t } ∧
    (save_tokens td t st).2.fs = CacheFile.record { td with timestamp := some t } ∧
    (∀ refreshApi, 300 ≤ td.expires_in.getD 86400 →
      load_tokens t refreshApi (save_tokens td t st).2 =
        (.ok (some { td with timestamp := some t }), (save_tokens td t st).2)) := by
  refine ⟨rfl, rfl, ?_⟩
  intro refreshApi hmargin
  have hfresh : isFresh { td with timestamp := some t } t = true := by
    simp [isFresh]
    omega
  simp [load_tokens, save_tokens, hfresh]

/-- Witness for `save_tokens_roundtrip`: saving a record that carries a
bogus input issue time 999 at clock 7777. -/
theorem save_tokens_roundtrip_witness :
    (save_tokens { access_token := some "a", expires_in := some 3600,
                   timestamp := some 999 } 7777
        ⟨CacheFile.absent, none, false, false, []⟩).1 =
      { access_token := some "a", expires_in := some 3600, timestamp := some 7777 } ∧
    load_tokens 7777 (fun _ => Except.error "e")
        (save_tokens { access_token := some "a", expires_in := some 3600,
                       timestamp := some 999 } 7777
          ⟨CacheFile.absent, none, false, false, []⟩).2 =
      (.ok (some { access_token := some "a", expires_in := some 3600,
                   timestamp := some 7777 }),
       (save_tokens { access_token := some "a", expires_in := some 3600,
                      timestamp := some 999 } 7777
         ⟨CacheFile.absent, none, false, false, []⟩).2) :=
  ⟨(save_tokens_roundtrip
      { access_token := some "a", expires_in := some 3600, timestamp := some 999 }
      7777 ⟨CacheFile.absent, none, false, false, []⟩).1,
   (save_tokens_roundtrip
      { access_token := some "a", expires_in := some 3600, timestamp := some 999 }
      7777 ⟨CacheFile.absent, none, false, false, []⟩).2.2
     (fun _ => Except.error "e") (by decide)⟩

/-- Once the listener binds (port free), the interactive branch records the
listener start, whatever the flow's outcome. -/
theorem authFlow_starts_listener (entropy : List Nat)
    (arrivals : Nat → Option (List (String × String)))
    (exchangeApi : String → String → Except String TokenData)
    (nowSave : Int) (st : PState) (hb : st.serverBound = false) :
    Effect.startListener ∈ (authFlow entropy arrivals exchangeApi nowSave st).2.effects := by
  rw [authFlow, get_authorization_code]
  simp only [hb, Bool.false_eq_true, if_false]
  rcases hr : pollLoop arrivals 0 st.handlerCode 301 with ⟨copt, n⟩
  cases copt with
  | none => simp
  | some c =>
    rcases hx : exchangeApi c (generate_code_verifier entropy) with msg | td
    · simp [get_access_token, hx]
    · simp [get_access_token, hx, save_tokens]

/-- C2 counterexample: a stale cached record without a refresh token (but
with an access token) makes `authenticate` return that stale record at once,
with the process state untouched — no PKCE pair, no listener, no browser —
contradicting the claim that this cache state proceeds to the interactive
flow. -/
theorem authenticate_stale_no_refresh_cex :
    authenticate 10000 (fun _ => Except.error "down") (List.range 32)
        (fun _ => none) (fun _ _ => Except.error "down") 10000
        ⟨CacheFile.record
           { access_token := some "stale_tok", expires_in := some 3600,
             timestamp := some 0 },
         none, false, false, []⟩ =
      (Except.ok (some { access_token := some "stale_tok", expires_in := some 3600,
                         timestamp := some 0 }),
       ⟨CacheFile.record
          { access_token := some "stale_tok", expires_in := some 3600,
            timestamp := some 0 },
        none, false, false, []⟩) := by
  rfl

/-- C2 (amended): `authenticate` goes interactive (PKCE, listener, browser)
when the cache is absent, or when a stale record's refresh fails; it returns
the cached record immediately with no network call and no state change when
the record holds an access token and is fresh — and ALSO when it is stale
with no refresh token, in which case the stale record is returned instead of
entering the interactive flow. -/
theorem authenticate_spec (now nowSave : Int)
    (refreshApi : String → Except String TokenData) (entropy : List Nat)
    (arrivals : Nat → Option (List (String × String)))
    (exchangeApi : String → String → Except String TokenData) (st : PState) :
    (st.fs = CacheFile.absent → st.serverBound = false →
      Effect.startListener ∈
        (authenticate now refreshApi entropy arrivals exchangeApi nowSave st).2.effects) ∧
    (∀ td, st.fs = CacheFile.record td → td.access_token.isSome = true →
      isFresh td now = true →
      authenticate now refreshApi entropy arrivals exchangeApi nowSave st =
        (.ok (some td), st)) ∧
    (∀ td, st.fs = CacheFile.record td → td.access_token.isSome = true →
      isFresh td now = false → td.refresh_token = none →
      authenticate now refreshApi entropy arrivals exchangeApi nowSave st =
        (.ok (some td), st)) ∧
    (∀ td rt msg, st.fs = CacheFile.record td → isFresh td now = false →
      td.refresh_token = some rt → refreshApi rt = .error msg →
      st.serverBound = false →
      Effect.startListener ∈
        (authenticate now refreshApi entropy arrivals exchangeApi nowSave st).2.effects) := by
  refine ⟨?_, ?_, ?_, ?_⟩
  · intro hfs hb
    have hl : load_tokens now refreshApi st = (.ok none, st) := by
      simp [load_tokens, hfs]
    rw [authenticate, hl]
    exact authFlow_starts_listener entropy arrivals exchangeApi nowSave st hb
  · intro td hfs hacc hfresh
    have hl : load_tokens now refreshApi st = (.ok (some td), st) := by
      simp [load_tokens, hfs, hfresh]
    rw [authenticate, hl]
    simp [hacc]
  · intro td hfs hacc hstale hrt
    have hl : load_tokens now refreshApi st = (.ok (some td), st) := by
      simp [load_tokens, hfs, hstale, hrt]
    rw [authenticate, hl]
    simp [hacc]
  · intro td rt msg hfs hstale hrt hapi hb
    have hl : load_tokens now refreshApi st =
        (.ok none, { st with effects := st.effects ++ [Effect.refreshCall rt] }) := by
      simp [load_tokens, hfs, hstale, hrt, refresh_access_token, hapi]
    rw [authenticate, hl]
    exact authFlow_starts_listener entropy arrivals exchangeApi nowSave
      { st with effects := st.effects ++ [Effect.refreshCall rt] }
      (by simp [hb])

/-- Witness for `authenticate_spec` at concrete cache states. -/
theorem authenticate_spec_witness :
    Effect.startListener ∈
      (authenticate 0 (fun _ => Except.error "e") (List.range 32) (fun _ => none)
          (fun _ _ => Except.error "e") 0
          ⟨CacheFile.absent, none, false, false, []⟩).2.effects ∧
    (authenticate 100 (fun _ => Except.error "e") (List.range 32) (fun _ => none)
        (fun _ _ => Except.error "e") 100
        ⟨CacheFile.record
           { access_token := some "t", expires_in := some 3600, timestamp := some 0 },
         none, false, false, []⟩ =
      (.ok (some { access_token := some "t", expires_in := some 3600,
                   timestamp := some 0 }),
       ⟨CacheFile.record
          { access_token := some "t", expires_in := some 3600, timestamp := some 0 },
        none, false, false, []⟩)) ∧
    (authenticate 10000 (fun _ => Except.error "e") (List.range 32) (fun _ => none)
        (fun _ _ => Except.error "e") 10000
        ⟨CacheFile.record
           { access_token := some "t", expires_in := some 3600, timestamp := some 0 },
         none, false, false, []⟩ =
      (.ok (some { access_token := some "t", expires_in := some 3600,
                   timestamp := some 0 }),
       ⟨CacheFile.record
          { access_token := some "t", expires_in := some 3600, timestamp := some 0 },
        none, false, false, []⟩)) ∧
    Effect.startListener ∈
      (authenticate 10000 (fun _ => Except.error "e") (List.range 32) (fun _ => none)
          (fun _ _ => Except.error "e") 10000
          ⟨CacheFile.record
             { access_token := some "t", refresh_token := some "r",
               expires_in := some 3600, timestamp := some 0 },
           none, false, false, []⟩).2.effects :=
  ⟨(authenticate_spec 0 0 (fun _ => Except.error "e") (List.range 32) (fun _ => none)
      (fun _ _ => Except.error "e")
      ⟨CacheFile.absent, none, false, false, []⟩).1 rfl rfl,
   (authenticate_spec 100 100 (fun _ => Except.error "e") (List.range 32)
      (fun _ => none) (fun _ _ => Except.error "e")
      ⟨CacheFile.record
         { access_token := some "t", expires_in := some 3600, timestamp := some 0 },
       none, false, false, []⟩).2.1
     { access_token := some "t", expires_in := some 3600, timestamp := some 0 }
     rfl rfl (by decide),
   (authenticate_spec 10000 10000 (fun _ => Except.error "e") (List.range 32)
      (fun _ => none) (fun _ _ => Except.error "e")
      ⟨CacheFile.record
         { access_token := some "t", expires_in := some 3600, timestamp := some 0 },
       none, false, false, []⟩).2.2.1
     { access_token := some "t", expires_in := some 3600, timestamp := some 0 }
     rfl rfl (by decide) rfl,
   (authenticate_spec 10000 10000 (fun _ => Except.error "e") (List.range 32)
      (fun _ => none) (fun _ _ => Except.error "e")
      ⟨CacheFile.record
         { access_token := some "t", refresh_token := some "r",
           expires_in := some 3600, timestamp := some 0 },
       none, false, false, []⟩).2.2.2
     { access_token := some "t", refresh_token := some "r",
       expires_in := some 3600, timestamp := some 0 }
     "r" "e" rfl (by decide) rfl rfl rfl⟩
